import Mathlib

/-!
Verification of the IoT soil-monitoring edge agent.

The Python source is shallowly embedded: pure protocol logic
(`SensorReader._crc16_modbus`, frame validation and decoding in
`SensorReader.read_sensor_data`), the CSV-backed offline queue
(`OfflineLogger.save` / `load_batch` / `remove_synced`), the drain loop
(`MainController.sync_offline_data`), the delivery decision
(`GatewayLogger.send_to_gateway` composed in
`MainController.collect_and_process_data`), the assignment-state machine
(`SensorReader.check_assignment_status`) and the connectivity cache
(`NetworkManager.check_all_connectivity` / `has_internet`) become Lean
functions over explicit state.  Machine integers are `Nat` (bytes are
`Nat < 256`); measurements divided by 10 are modelled in `ℚ`; network and
serial I/O results are passed in as explicit parameters.
-/

set_option maxRecDepth 4000

namespace IoTSoil

/-! ### FrameCodec: CRC-16/MODBUS (`SensorReader._crc16_modbus`) -/

/-- One LSB-first shift step of the CRC register: shift right, XOR the
polynomial 0xA001 when the bit shifted out was set. -/
def crcShift (crc : Nat) : Nat :=
  if crc % 2 = 1 then (crc / 2) ^^^ 0xA001 else crc / 2

/-- Processing of one input byte: XOR it into the register, then eight
shift steps (the inner `for _ in range(8)` loop). -/
def crcByte (crc byte : Nat) : Nat :=
  crcShift^[8] (crc ^^^ byte)

/-- The CRC register after processing a byte list, initial value 0xFFFF
(the `crc` local of `_crc16_modbus`). -/
def crc16_modbus (data : List Nat) : Nat :=
  data.foldl crcByte 0xFFFF

/-- `crc.to_bytes(2, byteorder='little')`: the two result bytes,
low byte first. -/
def crc16_bytes (data : List Nat) : List Nat :=
  [crc16_modbus data % 256, crc16_modbus data / 256 % 256]

/-- The fixed Modbus poll command `Config.MODBUS_COMMAND`. -/
def MODBUS_COMMAND : List Nat := [0x01, 0x03, 0x00, 0x00, 0x00, 0x07, 0x04, 0x08]

/-- `Config.RESPONSE_LENGTH`. -/
def RESPONSE_LENGTH : Nat := 19

/-- C1: the checksum is the CRC-16/MODBUS fold — initial register 0xFFFF,
each byte XORed in and shifted 8 times LSB-first with polynomial 0xA001
applied when the low bit is set, result encoded as two little-endian
bytes — and on the input [0x01,0x03,0x00,0x00,0x00,0x07] it produces the
trailer bytes 0x04 0x08 (the last two bytes of `Config.MODBUS_COMMAND`). -/
theorem crc16_modbus_spec :
    (crc16_modbus [] = 0xFFFF) ∧
    (∀ data b, crc16_modbus (data ++ [b]) = crcShift^[8] (crc16_modbus data ^^^ b)) ∧
    (∀ c, c % 2 = 1 → crcShift c = (c / 2) ^^^ 0xA001) ∧
    (∀ c, c % 2 = 0 → crcShift c = c / 2) ∧
    crc16_bytes [0x01, 0x03, 0x00, 0x00, 0x00, 0x07] = [0x04, 0x08] ∧
    MODBUS_COMMAND = [0x01, 0x03, 0x00, 0x00, 0x00, 0x07] ++
      crc16_bytes [0x01, 0x03, 0x00, 0x00, 0x00, 0x07] := by
  refine ⟨rfl, ?_, ?_, ?_, by decide, by decide⟩
  · intro data b
    simp [crc16_modbus, List.foldl_append, crcByte]
  · intro c hc
    simp [crcShift, hc]
  · intro c hc
    simp [crcShift, hc]

/-! ### Frame assembly and validation (`SensorReader.read_sensor_data`) -/

/-- The response assembled by `read_sensor_data`: the first serial read,
extended by one supplementary read of the missing bytes when the first
read came back short (`response += additional`).  `supplementary` is the
byte stream the port would deliver; `take` models that at most the
remaining count is read. -/
def read_frame (first supplementary : List Nat) : List Nat :=
  if first.length < RESPONSE_LENGTH then
    first ++ supplementary.take (RESPONSE_LENGTH - first.length)
  else first

/-- The length check and CRC check of `read_sensor_data`: `none` is the
rejected cycle (`return None`), `some response` the frame that reaches
parsing. -/
def validate_frame (response : List Nat) : Option (List Nat) :=
  if response.length ≠ RESPONSE_LENGTH then none
  else if response.drop (RESPONSE_LENGTH - 2) ≠
      crc16_bytes (response.take (RESPONSE_LENGTH - 2)) then none
  else some response

/-- A concrete frame whose trailer is its own CRC, used as validation
witness: 17 payload bytes followed by their checksum. -/
def goodFrame : List Nat :=
  [0x01, 0x03, 0x0E, 0x01, 0xF4, 0x00, 0xFA, 0, 0, 0, 0, 0, 0, 0, 0, 0, 0] ++
    crc16_bytes [0x01, 0x03, 0x0E, 0x01, 0xF4, 0x00, 0xFA, 0, 0, 0, 0, 0, 0, 0, 0, 0, 0]

/-- C2: a frame yields a validated result iff the assembled response
(after at most one supplementary read) has length `RESPONSE_LENGTH` and
its trailing two bytes equal the checksum of the preceding bytes; any
length or checksum mismatch yields `none`, and acceptance is never
partial: the accepted frame is exactly the assembled response. -/
theorem validate_frame_iff (first supplementary : List Nat) :
    (validate_frame (read_frame first supplementary) =
        some (read_frame first supplementary) ↔
      (read_frame first supplementary).length = RESPONSE_LENGTH ∧
      (read_frame first supplementary).drop (RESPONSE_LENGTH - 2) =
        crc16_bytes ((read_frame first supplementary).take (RESPONSE_LENGTH - 2))) ∧
    (∀ f, validate_frame (read_frame first supplementary) = some f →
      f = read_frame first supplementary ∧
      f.length = RESPONSE_LENGTH ∧
      f.drop (RESPONSE_LENGTH - 2) = crc16_bytes (f.take (RESPONSE_LENGTH - 2))) := by
  constructor
  · constructor
    · intro h
      unfold validate_frame at h
      split at h
      · exact absurd h (by simp)
      · split at h
        · exact absurd h (by simp)
        · refine ⟨by omega, by tauto⟩
    · rintro ⟨h1, h2⟩
      unfold validate_frame
      rw [if_neg (by omega), if_neg (by simp [h2])]
  · intro f hf
    unfold validate_frame at hf
    split at hf
    · exact absurd hf (by simp)
    · split at hf
      · exact absurd hf (by simp)
      · obtain rfl : read_frame first supplementary = f := by injection hf
        refine ⟨rfl, by omega, by tauto⟩

/-- Witness for C2: the concrete frame `goodFrame` read in one piece
passes validation, and a frame with a corrupted last byte is rejected. -/
theorem validate_frame_iff_witness :
    validate_frame (read_frame goodFrame []) = some (read_frame goodFrame []) ∧
    validate_frame (read_frame (goodFrame.take 18 ++ [0xFF]) []) = none := by
  refine ⟨((validate_frame_iff goodFrame []).1).2 ⟨by decide, by decide⟩, by decide⟩

/-! ### Field decoding (`read_sensor_data` parse step) -/

/-- `int.from_bytes(response[i:i+2], 'big')`: the big-endian 16-bit word
at byte offset `i`. -/
def word_at (response : List Nat) (i : Nat) : Nat :=
  256 * response.getD i 0 + response.getD (i + 1) 0

/-- One decoded sensor sample: the seven measurement fields of the
`sensor_data` dict, each a value divided by 10. -/
structure Reading where
  moisture : ℚ
  temperature : ℚ
  conductivity : ℚ
  ph : ℚ
  nitrogen : ℚ
  phosphorus : ℚ
  potassium : ℚ
  deriving DecidableEq

/-- The parse step of `read_sensor_data`: seven big-endian 16-bit fields
at byte offsets 3,5,7,9,11,13,15, each divided by 10, in the fixed order
moisture, temperature, conductivity, ph, nitrogen, phosphorus, potassium. -/
def decode (response : List Nat) : Reading where
  moisture := (word_at response 3 : ℚ) / 10
  temperature := (word_at response 5 : ℚ) / 10
  conductivity := (word_at response 7 : ℚ) / 10
  ph := (word_at response 9 : ℚ) / 10
  nitrogen := (word_at response 11 : ℚ) / 10
  phosphorus := (word_at response 13 : ℚ) / 10
  potassium := (word_at response 15 : ℚ) / 10

/-- C6: decoding reads the big-endian words at offsets 3,5,7,9,11,13,15,
divides each by 10 and assigns them in the order moisture, temperature,
conductivity, pH, nitrogen, phosphorus, potassium; on `goodFrame`
(bytes[3:5] = 0x01F4, bytes[5:7] = 0x00FA) it yields moisture 50 and
temperature 25. -/
theorem decode_spec :
    (∀ r : List Nat, decode r =
      ⟨(256 * r.getD 3 0 + r.getD 4 0 : ℚ) / 10,
       (256 * r.getD 5 0 + r.getD 6 0 : ℚ) / 10,
       (256 * r.getD 7 0 + r.getD 8 0 : ℚ) / 10,
       (256 * r.getD 9 0 + r.getD 10 0 : ℚ) / 10,
       (256 * r.getD 11 0 + r.getD 12 0 : ℚ) / 10,
       (256 * r.getD 13 0 + r.getD 14 0 : ℚ) / 10,
       (256 * r.getD 15 0 + r.getD 16 0 : ℚ) / 10⟩) ∧
    (decode goodFrame).moisture = 50 ∧ (decode goodFrame).temperature = 25 := by
  refine ⟨fun r => ?_, by norm_num [decode, word_at, goodFrame], by norm_num [decode, word_at, goodFrame]⟩
  simp [decode, word_at]

/-! ### DurableQueue (`OfflineLogger`)

The CSV store is modelled as the list of its rows, oldest first; a
missing file is `[]` (the file, when present, always holds at least one
row: `save` writes at least one and `remove_synced` deletes the file
rather than leave it empty). -/

/-- `Config.MAX_OFFLINE_RECORDS`. -/
def MAX_OFFLINE_RECORDS : Nat := 1000

/-- `OfflineLogger.save`: append the record; when the store already
existed and the combined length exceeds `maxRecords`, keep only the last
`maxRecords` rows (`df_combined.tail(self.max_records)`). -/
def save {α : Type} (maxRecords : Nat) (q : List α) (data : α) : List α :=
  if q.isEmpty then [data]
  else
    let combined := q ++ [data]
    if combined.length > maxRecords then
      combined.drop (combined.length - maxRecords)
    else combined

/-- `OfflineLogger.load_batch`: the `batchSize` oldest rows
(`df.head(batch_size)`) when the store is non-empty, else the empty
batch; the store itself is untouched. -/
def load_batch {α : Type} (q : List α) (batchSize : Nat) : List α :=
  if 0 < q.length then q.take batchSize else []

/-- `OfflineLogger.remove_synced`: delete the whole file when `count`
covers every row, else drop the oldest `count` rows (`df.iloc[count:]`). -/
def remove_synced {α : Type} (q : List α) (count : Nat) : List α :=
  if q.length ≤ count then [] else q.drop count

theorem load_batch_eq_take {α : Type} (q : List α) (n : Nat) :
    load_batch q n = q.take n := by
  unfold load_batch
  split
  · rfl
  · have : q = [] := by
      cases q with
      | nil => rfl
      | cons x xs => simp at *
    simp [this]

theorem remove_synced_eq_drop {α : Type} (q : List α) (count : Nat) :
    remove_synced q count = q.drop count := by
  unfold remove_synced
  split
  · exact (List.drop_eq_nil_of_le (by assumption)).symm
  · rfl

theorem save_suffix {α : Type} (maxRecords : Nat) (q : List α) (data : α) :
    save maxRecords q data <:+ q ++ [data] := by
  unfold save
  split
  · rename_i h
    simp [List.isEmpty_iff.1 h]
  · dsimp only
    split
    · exact List.drop_suffix _ _
    · exact List.suffix_refl _

theorem save_length_le {α : Type} (maxRecords : Nat) (hm : 1 ≤ maxRecords)
    (q : List α) (data : α) (hq : q.length ≤ maxRecords) :
    (save maxRecords q data).length ≤ maxRecords := by
  unfold save
  split
  · simpa
  · dsimp only
    split
    · simp only [List.length_drop, List.length_append, List.length_cons,
        List.length_nil]
      omega
    · simp only [List.length_append, List.length_cons, List.length_nil] at *
      omega

theorem save_mem_newest {α : Type} (maxRecords : Nat) (hm : 1 ≤ maxRecords)
    (q : List α) (data : α) : data ∈ save maxRecords q data := by
  unfold save
  split
  · simp
  · dsimp only
    split
    · have hle : (q ++ [data]).length - maxRecords ≤ q.length := by
        simp only [List.length_append, List.length_cons, List.length_nil]
        omega
      rw [List.drop_append_of_le_length hle]
      simp
    · simp

/-- C4: after any sequence of `save` calls starting from the empty store,
the queue holds at most `maxRecords` records (for the configured bound,
which is at least 1); and every `save` keeps a suffix of the appended
list — the records it discards are the oldest ones, never the newest,
and the newly appended record always survives. -/
theorem save_bounded_drops_oldest {α : Type} (maxRecords : Nat)
    (hm : 1 ≤ maxRecords) :
    (∀ es : List α, (es.foldl (save maxRecords) []).length ≤ maxRecords) ∧
    (∀ (q : List α) (data : α),
      save maxRecords q data <:+ q ++ [data] ∧ data ∈ save maxRecords q data) := by
  constructor
  · intro es
    have key : ∀ (es : List α) (q : List α), q.length ≤ maxRecords →
        (es.foldl (save maxRecords) q).length ≤ maxRecords := by
      intro es
      induction es with
      | nil => intro q hq; exact hq
      | cons e es ih =>
        intro q hq
        exact ih _ (save_length_le maxRecords hm q e hq)
    exact key es [] (by simp)
  · intro q data
    exact ⟨save_suffix maxRecords q data, save_mem_newest maxRecords hm q data⟩

/-- Witness for C4: with capacity 2, four saves leave at most 2 records,
a save over a full queue keeps a suffix, and the newest record survives. -/
theorem save_bounded_drops_oldest_witness :
    (([0, 1, 2, 3] : List Nat).foldl (save 2) []).length ≤ 2 ∧
    save 2 [0, 1] 2 <:+ [0, 1] ++ [2] ∧ (2 : Nat) ∈ save 2 [0, 1] 2 :=
  ⟨(save_bounded_drops_oldest 2 (by decide)).1 [0, 1, 2, 3],
   ((save_bounded_drops_oldest 2 (by decide)).2 [0, 1] 2).1,
   ((save_bounded_drops_oldest 2 (by decide)).2 [0, 1] 2).2⟩

/-- C7: `load_batch` returns exactly the oldest `n` surviving entries —
a prefix of the queue of length at most `n`, in enqueue order — without
modifying the queue (it is a pure function of the store), and the empty
store yields the empty batch. -/
theorem load_batch_fifo {α : Type} (q : List α) (n : Nat) :
    load_batch q n = q.take n ∧
    load_batch q n <+: q ∧
    (load_batch q n).length = min n q.length ∧
    load_batch ([] : List α) n = [] := by
  refine ⟨load_batch_eq_take q n, ?_, ?_, by simp [load_batch]⟩
  · rw [load_batch_eq_take]
    exact List.take_prefix n q
  · rw [load_batch_eq_take]
    simp

/-! ### Queue drain (`MainController.sync_offline_data`) -/

/-- The per-record loop of `sync_offline_data`: walk the batch in order,
counting confirmed sends, and stop at the first failure (`break`).
`send` is the verdict of `GatewayLogger.send_to_gateway` for each record
(an exception while sending also breaks, i.e. counts as `false`). -/
def successful_syncs {α : Type} (send : α → Bool) : List α → Nat
  | [] => 0
  | x :: xs => if send x then successful_syncs send xs + 1 else 0

/-- `MainController.sync_offline_data`, drain part (the gateway
reachability and rate-limit early returns are upstream guards): load a
batch of the oldest records, send them one at a time in order stopping at
the first failure, then remove the confirmed prefix when non-empty.
Returns the confirmed count and the queue afterwards. -/
def sync_offline_data {α : Type} (send : α → Bool) (batchSize : Nat)
    (q : List α) : Nat × List α :=
  let batch := load_batch q batchSize
  let k := successful_syncs send batch
  if 0 < k then (k, remove_synced q k) else (k, q)

theorem successful_syncs_eq_takeWhile {α : Type} (send : α → Bool)
    (l : List α) : successful_syncs send l = (l.takeWhile send).length := by
  induction l with
  | nil => rfl
  | cons x xs ih =>
    by_cases hx : send x = true
    · simp [successful_syncs, List.takeWhile_cons, hx, ih]
    · simp [successful_syncs, List.takeWhile_cons, hx]

theorem head_drop_takeWhile_false {α : Type} (p : α → Bool) (l : List α)
    (e : α) (h : (l.drop (l.takeWhile p).length).head? = some e) :
    p e = false := by
  induction l with
  | nil => simp at h
  | cons x xs ih =>
    by_cases hx : p x = true
    · rw [List.takeWhile_cons, if_pos hx] at h
      exact ih (by simpa using h)
    · rw [List.takeWhile_cons, if_neg hx] at h
      simp at h
      rw [← h]
      simpa using hx

theorem sync_fst_eq {α : Type} (send : α → Bool) (n : Nat) (q : List α) :
    (sync_offline_data send n q).1 =
      ((q.take n).takeWhile send).length := by
  unfold sync_offline_data
  dsimp only
  split <;>
    simp [successful_syncs_eq_takeWhile, load_batch_eq_take]

/-- C3: in a drain, the confirmed count `k` never exceeds the batch size;
the acknowledged entries are the oldest `k` and each of them was
confirmed by `send`; the first unsent batch entry (when one exists) was a
failed send — the batch stopped at the first failure; and the queue
afterwards is exactly the original queue with its oldest `k` entries
removed, the remainder in original order. -/
theorem sync_offline_data_fifo {α : Type} (send : α → Bool) (n : Nat)
    (q : List α) :
    (sync_offline_data send n q).1 ≤ n ∧
    (∀ e ∈ q.take (sync_offline_data send n q).1, send e = true) ∧
    (∀ e, ((q.take n).drop (sync_offline_data send n q).1).head? = some e →
      send e = false) ∧
    (sync_offline_data send n q).2 = q.drop (sync_offline_data send n q).1 := by
  have hk := sync_fst_eq send n q
  refine ⟨?_, ?_, ?_, ?_⟩
  · rw [hk]
    calc ((q.take n).takeWhile send).length ≤ (q.take n).length :=
          (List.takeWhile_prefix send).length_le
      _ ≤ n := by simp
  · intro e he
    rw [hk] at he
    have hpre : (q.take n).takeWhile send <+: q := by
      calc (q.take n).takeWhile send <+: q.take n := List.takeWhile_prefix _
        _ <+: q := List.take_prefix n q
    have htake : q.take ((q.take n).takeWhile send).length =
        (q.take n).takeWhile send := (List.prefix_iff_eq_take.1 hpre).symm
    rw [htake] at he
    exact List.mem_takeWhile_imp he
  · intro e he
    rw [hk] at he
    exact head_drop_takeWhile_false send (q.take n) e he
  · unfold sync_offline_data
    dsimp only
    split
    · simp [remove_synced_eq_drop]
    · rename_i h
      simp only [Nat.not_lt, Nat.le_zero] at h
      rw [show (successful_syncs send (load_batch q n)) = 0 from h]
      simp

/-- Witness for C3: queue [0,1,5,3], batch size 3, send succeeding exactly
on values below 2: the drain confirms the two oldest entries, the third
batch entry 5 is a failed send, and the queue afterwards is [5, 3]. -/
theorem sync_offline_data_fifo_witness :
    (fun e : Nat => decide (e < 2)) 5 = false ∧
    (sync_offline_data (fun e : Nat => decide (e < 2)) 3 [0, 1, 5, 3]).2 =
      [0, 1, 5, 3].drop
        (sync_offline_data (fun e : Nat => decide (e < 2)) 3 [0, 1, 5, 3]).1 :=
  ⟨(sync_offline_data_fifo (fun e : Nat => decide (e < 2)) 3 [0, 1, 5, 3]).2.2.1
      5 (by decide),
   (sync_offline_data_fifo (fun e : Nat => decide (e < 2)) 3 [0, 1, 5, 3]).2.2.2⟩

/-! ### Direct send and the delivery decision
(`GatewayLogger.send_to_gateway`, `MainController.collect_and_process_data`) -/

/-- Outcome of the HTTP POST in `GatewayLogger.send_to_gateway`: a status
code, or a raised connection error / timeout / other exception. -/
inductive GatewayResult where
  | status (code : Nat)
  | connectionError
  | timeout
  | otherError
  deriving DecidableEq

/-- `GatewayLogger.send_to_gateway` (and `GatewayLogger.save`, which just
calls it): True on status 200, 202 and 503, False on 403, on any other
status, and on any exception. -/
def send_to_gateway : GatewayResult → Bool
  | .status 200 => true
  | .status 202 => true
  | .status 403 => false
  | .status 503 => true
  | .status _ => false
  | .connectionError => false
  | .timeout => false
  | .otherError => false

/-- The delivery branch of `MainController.collect_and_process_data` for
a collected reading: when the gateway connectivity flag is set, attempt
the direct send (`self.gateway.save`); on True run the offline sync (its
own guards: gateway reachable and the 15-minute rate limit), on False
store the reading offline; with no gateway connectivity, store offline
directly.  Returns the offline queue after the cycle. -/
def collect_deliver {α : Type} (send : α → Bool) (batchSize maxRecords : Nat)
    (gatewayConnectivity canReachGateway syncDue : Bool)
    (result : GatewayResult) (q : List α) (data : α) : List α :=
  if gatewayConnectivity then
    if send_to_gateway result then
      if canReachGateway && syncDue then (sync_offline_data send batchSize q).2
      else q
    else save maxRecords q data
  else save maxRecords q data

/-- Counterexample to C5: a direct send answered with HTTP 403 does NOT
drop the reading — `send_to_gateway` returns False and the controller
falls into the offline-storage branch, so the reading IS enqueued: with
an empty queue, reading 7 ends up stored offline. -/
theorem send_403_enqueued_counterexample :
    send_to_gateway (GatewayResult.status 403) = false ∧
    collect_deliver (fun _ => true) 20 1000 true true true
      (GatewayResult.status 403) ([] : List Nat) 7 = [7] ∧
    (7 : Nat) ∈ collect_deliver (fun _ => true) 20 1000 true true true
      (GatewayResult.status 403) ([] : List Nat) 7 := by
  refine ⟨rfl, ?_, ?_⟩ <;> decide

/-- C5 amended: a 403 authorization rejection makes `send_to_gateway`
return False, and the controller treats it exactly like any other send
failure — the reading is stored in the durable offline queue
(`OfflineLogger.save`), not dropped. -/
theorem send_403_enqueues {α : Type} (send : α → Bool)
    (batchSize maxRecords : Nat) (canReachGateway syncDue : Bool)
    (q : List α) (data : α) :
    send_to_gateway (GatewayResult.status 403) = false ∧
    collect_deliver send batchSize maxRecords true canReachGateway syncDue
      (GatewayResult.status 403) q data = save maxRecords q data := by
  exact ⟨rfl, rfl⟩

/-! ### Assignment state (`SensorReader.check_assignment_status`) -/

/-- `Config.ASSIGNMENT_CHECK_INTERVAL`. -/
def ASSIGNMENT_CHECK_INTERVAL : Nat := 14400

/-- The assignment-related fields of `SensorReader`. -/
structure AssignState where
  is_assigned : Bool
  assigned_farm_id : Option Nat
  assigned_zone_code : Option Nat
  last_assignment_check : Nat
  deriving DecidableEq

/-- Body of a 200 assignment response: the `assigned` flag with its farm
and zone ids, or a body without an `assigned` key. -/
inductive AssignPayload where
  | fields (assigned : Bool) (farm zone : Option Nat)
  | missingKey
  deriving DecidableEq

/-- Outcome of the gateway attempt in `check_assignment_status`: a 200
response with its body, or anything else — non-200 status or raised
exception — both of which fall through to the direct DB attempt. -/
inductive GatewayAssignResult where
  | ok (payload : AssignPayload)
  | failed
  deriving DecidableEq

/-- Outcome of the DB attempt in `check_assignment_status`. -/
inductive DbAssignResult where
  | ok (payload : AssignPayload)
  | notFound
  | otherStatus (code : Nat)
  | connectionError
  | timeout
  | otherError
  deriving DecidableEq

/-- The DB attempt outcomes that are failures other than a 404. -/
def DbAssignResult.isNon404Failure : DbAssignResult → Bool
  | .ok _ => false
  | .notFound => false
  | .otherStatus _ => true
  | .connectionError => true
  | .timeout => true
  | .otherError => true

/-- `SensorReader.handle_assignment_response`: copy the `assigned` flag
when the key is present; record farm and zone when assigned, clear them
when not; leave everything untouched when the key is missing. -/
def handle_assignment_response (s : AssignState) : AssignPayload → AssignState
  | .fields assigned farm zone =>
      if assigned then
        { s with is_assigned := true, assigned_farm_id := farm,
                 assigned_zone_code := zone }
      else
        { s with is_assigned := false, assigned_farm_id := none,
                 assigned_zone_code := none }
  | .missingKey => s

/-- `SensorReader.check_assignment_status`: return the cached flag inside
the TTL window unless forced; otherwise try the gateway, fall back to the
DB; a 200 from either updates the state via
`handle_assignment_response` and stamps the check time; a DB 404 marks
the device unassigned; every other failure keeps the current state.
Returns the returned flag together with the sensor state afterwards. -/
def check_assignment_status (s : AssignState) (now : Nat) (force : Bool)
    (gw : GatewayAssignResult) (db : DbAssignResult) : Bool × AssignState :=
  if !force && (now - s.last_assignment_check < ASSIGNMENT_CHECK_INTERVAL) then
    (s.is_assigned, s)
  else
    match gw with
    | .ok payload =>
        let s2 := { handle_assignment_response s payload with
                      last_assignment_check := now }
        (s2.is_assigned, s2)
    | .failed =>
        match db with
        | .ok payload =>
            let s2 := { handle_assignment_response s payload with
                          last_assignment_check := now }
            (s2.is_assigned, s2)
        | .notFound =>
            (false, { s with is_assigned := false,
                             last_assignment_check := now })
        | .otherStatus _ => (s.is_assigned, s)
        | .connectionError => (s.is_assigned, s)
        | .timeout => (s.is_assigned, s)
        | .otherError => (s.is_assigned, s)

/-- C8: when the gateway attempt fell through and the DB attempt failed
with anything but a 404 (non-200 status, connection error, timeout or
another exception), the whole previously known assignment state — flag,
farm id, zone code, and even the last-check stamp — is kept unchanged;
a DB 404, on a check that actually runs, returns False and sets the
device unassigned (farm and zone ids are left as they were). -/
theorem check_assignment_failure_behaviour (s : AssignState) (now : Nat)
    (force : Bool) (db : DbAssignResult)
    (hdb : db.isNon404Failure = true) :
    check_assignment_status s now force .failed db = (s.is_assigned, s) ∧
    ∀ now2 force2,
      (force2 = true ∨
        ASSIGNMENT_CHECK_INTERVAL ≤ now2 - s.last_assignment_check) →
      check_assignment_status s now2 force2 .failed .notFound =
        (false, { s with is_assigned := false,
                         last_assignment_check := now2 }) := by
  constructor
  · unfold check_assignment_status
    split
    · rfl
    · cases db <;> simp [DbAssignResult.isNon404Failure] at hdb ⊢
  · intro now2 force2 hrun
    unfold check_assignment_status
    rw [if_neg ?_]
    rcases hrun with h | h
    · simp [h]
    · simp
      omega

/-- Witness for C8: a concrete assigned state survives a timed-out DB
check unchanged, and a forced check answered 404 clears the flag. -/
theorem check_assignment_failure_behaviour_witness :
    check_assignment_status ⟨true, some 4, some 2, 100⟩ 20000 false
        .failed .timeout = (true, ⟨true, some 4, some 2, 100⟩) ∧
    check_assignment_status ⟨true, some 4, some 2, 100⟩ 20000 true
        .failed .notFound = (false, ⟨false, some 4, some 2, 20000⟩) :=
  ⟨(check_assignment_failure_behaviour ⟨true, some 4, some 2, 100⟩ 20000 false
      .timeout (by decide)).1,
   (check_assignment_failure_behaviour ⟨true, some 4, some 2, 100⟩ 0 false
      .timeout (by decide)).2 20000 true (Or.inl rfl)⟩

/-! ### Connectivity cache (`NetworkManager`) -/

/-- The connectivity fields of `NetworkManager`. -/
structure NetState where
  internet_available : Bool
  db_pi_available : Bool
  gateway_pi_available : Bool
  last_internet_check : Nat
  deriving DecidableEq

/-- Fresh probe verdicts for the three targets — what `check_internet`,
`check_db_pi` and `check_gateway_pi` would observe at this instant. -/
structure ProbeResults where
  internet : Bool
  db_pi : Bool
  gateway_pi : Bool
  deriving DecidableEq

/-- `NetworkManager.check_all_connectivity`: within 300 seconds of the
last check (unless forced) report the cached triple without probing;
otherwise run the three probes, cache their verdicts and stamp the check
time.  Returns the reported triple, the state afterwards, and the number
of fresh probe rounds performed. -/
def check_all_connectivity (s : NetState) (now : Nat) (force : Bool)
    (p : ProbeResults) : (Bool × Bool × Bool) × NetState × Nat :=
  if !force && (now - s.last_internet_check < 300) then
    ((s.internet_available, s.db_pi_available, s.gateway_pi_available), s, 0)
  else
    ((p.internet, p.db_pi, p.gateway_pi),
     ⟨p.internet, p.db_pi, p.gateway_pi, now⟩, 1)

/-- `NetworkManager.has_internet`: refresh through
`check_all_connectivity` when the cache is older than 300 seconds, then
report the cached internet flag. -/
def has_internet (s : NetState) (now : Nat) (p : ProbeResults) :
    Bool × NetState × Nat :=
  if 300 < now - s.last_internet_check then
    let r := check_all_connectivity s now false p
    (r.2.1.internet_available, r.2.1, r.2.2)
  else (s.internet_available, s, 0)

/-- C9: two connectivity queries within the TTL window return identical
results, perform no probe, and leave the cached state and last-check
stamp untouched; a query after the TTL has expired performs exactly one
fresh probe round and returns its verdicts.  The same holds for the
`has_internet` wrapper. -/
theorem connectivity_cache_ttl (s : NetState) (now1 now2 now3 now4 : Nat)
    (p1 p2 p3 p4 : ProbeResults)
    (h1 : now1 - s.last_internet_check < 300)
    (h2 : now2 - s.last_internet_check < 300)
    (h3 : 300 ≤ now3 - s.last_internet_check)
    (h4 : 300 < now4 - s.last_internet_check) :
    (check_all_connectivity s now1 false p1).1 =
      (check_all_connectivity s now2 false p2).1 ∧
    (check_all_connectivity s now1 false p1).2 = (s, 0) ∧
    (check_all_connectivity
      (check_all_connectivity s now1 false p1).2.1 now2 false p2).2 = (s, 0) ∧
    (check_all_connectivity s now3 false p3).1 =
      (p3.internet, p3.db_pi, p3.gateway_pi) ∧
    (check_all_connectivity s now3 false p3).2.2 = 1 ∧
    (has_internet s now1 p1).1 = s.internet_available ∧
    (has_internet s now1 p1).2 = (s, 0) ∧
    (has_internet s now4 p4).1 = p4.internet ∧
    (has_internet s now4 p4).2.2 = 1 := by
  have e1 : check_all_connectivity s now1 false p1 =
      ((s.internet_available, s.db_pi_available, s.gateway_pi_available),
        s, 0) := by
    unfold check_all_connectivity
    rw [if_pos (by simp [h1])]
  have e2 : check_all_connectivity s now2 false p2 =
      ((s.internet_available, s.db_pi_available, s.gateway_pi_available),
        s, 0) := by
    unfold check_all_connectivity
    rw [if_pos (by simp [h2])]
  have e3 : check_all_connectivity s now3 false p3 =
      ((p3.internet, p3.db_pi, p3.gateway_pi),
        ⟨p3.internet, p3.db_pi, p3.gateway_pi, now3⟩, 1) := by
    unfold check_all_connectivity
    rw [if_neg (by simp; omega)]
  have e4 : check_all_connectivity s now4 false p4 =
      ((p4.internet, p4.db_pi, p4.gateway_pi),
        ⟨p4.internet, p4.db_pi, p4.gateway_pi, now4⟩, 1) := by
    unfold check_all_connectivity
    rw [if_neg (by simp; omega)]
  refine ⟨by rw [e1, e2], by rw [e1], by rw [e1]; exact congrArg _ e2, by rw [e3],
    by rw [e3], ?_, ?_, ?_, ?_⟩
  · unfold has_internet
    rw [if_neg (by omega)]
  · unfold has_internet
    rw [if_neg (by omega)]
  · unfold has_internet
    rw [if_pos h4]
    simp [e4]
  · unfold has_internet
    rw [if_pos h4]
    simp [e4]

/-- Witness for C9: a concrete cache stamped at time 100, queried at 150
and 200 (cached, no probe) and at 500 (one fresh probe). -/
theorem connectivity_cache_ttl_witness :
    (check_all_connectivity ⟨true, false, true, 100⟩ 150 false
        ⟨false, false, false⟩).1 =
      (check_all_connectivity ⟨true, false, true, 100⟩ 200 false
        ⟨false, true, false⟩).1 ∧
    (check_all_connectivity ⟨true, false, true, 100⟩ 500 false
        ⟨false, true, false⟩).2.2 = 1 :=
  ⟨(connectivity_cache_ttl ⟨true, false, true, 100⟩ 150 200 500 500
      ⟨false, false, false⟩ ⟨false, true, false⟩ ⟨false, true, false⟩
      ⟨false, true, false⟩ (by decide) (by decide) (by decide) (by decide)).1,
   (connectivity_cache_ttl ⟨true, false, true, 100⟩ 150 200 500 500
      ⟨false, false, false⟩ ⟨false, true, false⟩ ⟨false, true, false⟩
      ⟨false, true, false⟩ (by decide) (by decide) (by decide)
      (by decide)).2.2.2.2.1⟩

/-! ### Acquisition guard
(`SensorReader.read_sensor_data` and the controller stop branch) -/

/-- Outcome of the serial exchange in `read_sensor_data` once acquisition
is allowed: the bytes delivered by the two reads, a missing serial
connection that could not be re-initialised, or a raised exception. -/
inductive SerialOutcome where
  | frames (first supplementary : List Nat)
  | noConnection
  | serialError
  | otherError

/-- `SensorReader.read_sensor_data`: run the TTL-gated assignment check
and return `None` when it reports unassigned; otherwise exchange with
the sensor, validate the frame and decode it.  Returns the optional
reading and the assignment state at the moment of return. -/
def read_sensor_data (s : AssignState) (now : Nat)
    (gw : GatewayAssignResult) (db : DbAssignResult)
    (serial : SerialOutcome) : Option Reading × AssignState :=
  let r := check_assignment_status s now false gw db
  if !r.1 then (none, r.2)
  else
    match serial with
    | .frames first supplementary =>
        match validate_frame (read_frame first supplementary) with
        | none => (none, r.2)
        | some frame => (some (decode frame), r.2)
    | .noConnection => (none, r.2)
    | .serialError => (none, r.2)
    | .otherError => (none, r.2)

/-- The guard of the controller's stop branch in
`collect_and_process_data`: data was collected and yet
`self.sensor.is_assigned` is false (`self.running = False`). -/
def stop_branch_taken : Option Reading × AssignState → Bool
  | (some _, s) => !s.is_assigned
  | (none, _) => false

theorem check_assignment_fst_eq (s : AssignState) (now : Nat) (force : Bool)
    (gw : GatewayAssignResult) (db : DbAssignResult) :
    (check_assignment_status s now force gw db).1 =
      (check_assignment_status s now force gw db).2.is_assigned := by
  unfold check_assignment_status
  split
  · rfl
  · cases gw with
    | ok payload => rfl
    | failed => cases db <;> rfl

/-- C10: whenever `read_sensor_data` returns a reading, the assignment
flag of the state at return is true — the check guarding acquisition
reports exactly the stored flag and nothing afterwards clears it — so
the controller's branch that stops the run loop upon a collected reading
with an unassigned sensor is never taken. -/
theorem read_sensor_data_assigned (s : AssignState) (now : Nat)
    (gw : GatewayAssignResult) (db : DbAssignResult)
    (serial : SerialOutcome) :
    (∀ reading state,
      read_sensor_data s now gw db serial = (some reading, state) →
      state.is_assigned = true) ∧
    stop_branch_taken (read_sensor_data s now gw db serial) = false := by
  have hfst := check_assignment_fst_eq s now false gw db
  have key : ∀ reading state,
      read_sensor_data s now gw db serial = (some reading, state) →
      state.is_assigned = true := by
    intro reading state h
    unfold read_sensor_data at h
    by_cases hr : (check_assignment_status s now false gw db).1 = true
    · rw [hr] at hfst
      simp only [hr, Bool.not_true, Bool.false_eq_true, if_false] at h
      cases serial with
      | frames first supplementary =>
          dsimp only at h
          cases hv : validate_frame (read_frame first supplementary) with
          | none => rw [hv] at h; exact absurd h (by simp)
          | some frame =>
              rw [hv] at h
              have : (check_assignment_status s now false gw db).2 = state := by
                injection h
              rw [← this, ← hfst]
      | noConnection => exact absurd h (by simp)
      | serialError => exact absurd h (by simp)
      | otherError => exact absurd h (by simp)
    · simp only [Bool.not_eq_true] at hr
      simp [hr] at h
  refine ⟨key, ?_⟩
  cases hres : read_sensor_data s now gw db serial with
  | mk fst snd =>
      cases fst with
      | none => rfl
      | some reading =>
          have := key reading snd hres
          simp [stop_branch_taken, this]

/-- Witness for C10: an assigned sensor within the TTL window reading
`goodFrame` yields a reading, and the assignment flag at return is true
(the stop branch is not taken on this concrete run). -/
theorem read_sensor_data_assigned_witness :
    (⟨true, some 1, some 2, 0⟩ : AssignState).is_assigned = true ∧
    stop_branch_taken (read_sensor_data ⟨true, some 1, some 2, 0⟩ 0
      .failed .timeout (.frames goodFrame [])) = false :=
  ⟨(read_sensor_data_assigned ⟨true, some 1, some 2, 0⟩ 0 .failed .timeout
      (.frames goodFrame [])).1 (decode goodFrame) ⟨true, some 1, some 2, 0⟩
      (by rfl),
   (read_sensor_data_assigned ⟨true, some 1, some 2, 0⟩ 0 .failed .timeout
      (.frames goodFrame [])).2⟩

end IoTSoil
